/-
Verification of the UCare mental-health chatbot pipeline.

The backend request handler (`backend/index.js`), the conversation memory
module (`memory.js`), and the client-side stress display logic are embedded
shallowly: JavaScript strings are modelled as Lean `String`s with their
character data as `List Char`, nondeterministic externals (the Python emotion
classifier, the Gemini generative call, `Math.random`) are passed in as
explicit oracle arguments, and the file-backed memory store is passed as
explicit state.
-/
import Mathlib

set_option maxRecDepth 10000

namespace UCare

/-! ## JavaScript string primitives, modelled over `List Char`

JS `s.split(sep)` (non-empty `sep`) followed by `[head, ...rest]` and
`rest.join(sep)` recovers exactly the text before and after the *first*
occurrence of `sep`; `jsSplitFirst` embeds that combination directly.
`s.includes(t)`, `s.toLowerCase()` and `s.trim()` are modelled by
`containsL`/`strContains`, `lowerStr` and `trimStr` (the texts involved are
ASCII, where `Char.toLower` and `Char.isWhitespace` agree with JS). -/

/-- Split a character list at the first occurrence of `sep`: `none` when `sep`
does not occur, otherwise the text strictly before and strictly after the
leftmost occurrence. -/
def jsSplitFirst (sep : List Char) : List Char → Option (List Char × List Char)
  | [] => if sep.isEmpty then some ([], []) else none
  | c :: rest =>
    if sep.isPrefixOf (c :: rest) then
      some ([], (c :: rest).drop sep.length)
    else
      match jsSplitFirst sep rest with
      | some (pre, post) => some (c :: pre, post)
      | none => none

/-- JS `hay.includes(needle)`. -/
def containsL (hay needle : List Char) : Bool :=
  (jsSplitFirst needle hay).isSome

/-- JS `hay.includes(needle)` on strings. -/
def strContains (hay needle : String) : Bool :=
  containsL hay.data needle.data

/-- JS `s.toLowerCase()` (ASCII-faithful). -/
def lowerStr (s : String) : String :=
  String.mk (s.data.map Char.toLower)

/-- Drop leading and trailing whitespace from a character list. -/
def trimL (l : List Char) : List Char :=
  ((l.dropWhile Char.isWhitespace).reverse.dropWhile Char.isWhitespace).reverse

/-- JS `s.trim()` (ASCII-faithful). -/
def trimStr (s : String) : String :=
  String.mk (trimL s.data)

/-! ## Fixed data from `backend/index.js` -/

/-- `INDIAN_HELPLINE.phone` in `backend/index.js`. -/
def helplinePhone : String := "9152987821"

/-- `INDIAN_HELPLINE.website` in `backend/index.js`. -/
def helplineWebsite : String := "https://manastha.com/"

/-- The `crisisKeywords` array in `app.post('/api/chat')`. -/
def crisisKeywords : List String :=
  ["suicide", "kill myself", "end my life", "self-harm", "hurt myself",
   "take my life", "i want to die", "i want die", "cut myself"]

/-- The fixed crisis safety message (the `crisisMsg` template literal, with the
constants `INDIAN_HELPLINE.phone` and `INDIAN_HELPLINE.website` inlined; the
byte content matches the repository file, which stores its non-ASCII
characters double-encoded). -/
def crisisMsg : String :=
  "I hear your pain. If you are thinking about harming yourself, please know you donâ€™t have to go through this alone. You can reach out to someone you trust, or call 9152987821 or visit https://manastha.com/ for immediate support."

/-- The fixed helpline-reminder suffix appended when the parsed stress level is
3 (template literal with the helpline constants inlined). -/
def helplineSuffix : String :=
  "\n\nIf you feel overwhelmed, consider calling 9152987821 or visiting https://manastha.com/ for professional support."

/-- The `DEMO_REPLIES` array in `backend/index.js` (byte content as stored in
the repository file). -/
def DEMO_REPLIES : List String := [
  "Hey there! ðŸ‘‹ How's your day going? Remember, it's totally okay to not be okay sometimes.",
  "Hi friend! ðŸŒŸ I'm here to chat whenever you need someone to talk to. What's on your mind?",
  "Hello! âœ¨ You know what? Taking care of your mental health is just as important as physical health. How are you feeling right now?",
  "Hey! ðŸš€ Thanks for reaching out. Sometimes just talking about what's bothering us can make a huge difference. Want to share?",
  "Hi there! ðŸ’« I'm glad you're here. Remember, you're stronger than you think, and it's okay to ask for help when you need it.",
  "Hello friend! ðŸŒˆ How about we take a moment to breathe together? Inhale for 4 counts, hold for 4, exhale for 4. How does that feel?",
  "Hey! ðŸŽ¯ Sometimes the best thing we can do is just be kind to ourselves. What's something nice you could do for yourself today?",
  "Hi! ðŸŒ™ Remember, every day is a fresh start. What's one small thing you're looking forward to today?",
  "Hey there! ðŸŽ¨ You know what helps me? Writing down three things I'm grateful for. Want to try it together?",
  "Hello! ðŸŒŸ It's totally normal to have ups and downs. The important thing is that you're here and you're trying. That's brave!",
  "Hi friend! ðŸš€ Sometimes we all need a little reminder that we're doing better than we think. You're doing great!",
  "Hey! ðŸ’ Remember, you don't have to have it all figured out. It's okay to take things one step at a time.",
  "Hello! âœ¨ You know what's amazing? The fact that you're reaching out for support. That takes courage!",
  "Hi there! ðŸŒˆ How about we do a quick check-in? On a scale of 1-10, how are you feeling right now?",
  "Hey! ðŸŽ¯ Sometimes the best conversations start with 'I'm not okay.' It's totally fine to not be okay. Want to talk about it?"]

/-- The `GREETING_RESPONSES` array in `backend/index.js`. -/
def GREETING_RESPONSES : List String := [
  "Hey there! ðŸ‘‹ Welcome to UCare! I'm your AI mental health buddy. How are you feeling today?",
  "Hi friend! ðŸŒŸ Great to see you here! I'm here to listen and chat whenever you need someone to talk to.",
  "Hello! ðŸš€ Thanks for stopping by! How's your mental health journey going today?",
  "Hey! âœ¨ Welcome! I'm here to support you through whatever you're going through. What's on your mind?",
  "Hi there! ðŸŒˆ Nice to meet you! I'm your mental health companion. How can I help you today?",
  "Hello! ðŸ’« Welcome to the UCare family! I'm here to chat, listen, and support you. How are you doing?",
  "Hey! ðŸŽ¯ Great to have you here! I'm your AI friend who's here to help with whatever's on your mind.",
  "Hi! ðŸŒ™ Welcome! I'm here to be your mental health companion. What would you like to talk about today?"]

/-- The `greetings` list inside `isGreeting` in `backend/index.js`. -/
def greetings : List String :=
  ["hi", "hello", "hey", "good morning", "good afternoon", "good evening", "sup", "yo"]

/-- `isGreeting` from `backend/index.js`:
`greetings.some(greeting => message.toLowerCase().includes(greeting))`. -/
def isGreeting (message : String) : Bool :=
  greetings.any (fun greeting => strContains (lowerStr message) greeting)

/-! ## The memory store, from `memory.js` -/

/-- `MAX_ITEMS` in `memory.js`. -/
def MAX_ITEMS : Nat := 10

/-- One `{ user, bot, ts }` record of `conversation_memory.json`. -/
structure Exchange where
  user : String
  bot : String
  ts : Nat
deriving DecidableEq, Repr

/-- `writeMemory(items)`: persists `items.slice(-MAX_ITEMS)`, i.e. the last
`MAX_ITEMS` records.  The persisted document is the store state threaded
through the handler (persistence failures, swallowed by the source, leave the
previous state — the claims below concern the successful-write behavior). -/
def writeMemory (items : List Exchange) : List Exchange :=
  items.drop (items.length - MAX_ITEMS)

/-- `addExchange(userText, botText)`: read, push `{user, bot, ts: Date.now()}`,
write back (the wall-clock `Date.now()` is the explicit `now` argument). -/
def addExchange (userText botText : String) (now : Nat) (items : List Exchange) : List Exchange :=
  writeMemory (items ++ [⟨userText, botText, now⟩])

/-- The rendering applied to each exchange inside `getImportantContext`. -/
def renderExchange (it : Exchange) : String :=
  "User: " ++ it.user ++ "\nBot: " ++ it.bot

/-- JS `Array.join(sep)`. -/
def joinSep (sep : String) : List String → String
  | [] => ""
  | [x] => x
  | x :: xs => x ++ sep ++ joinSep sep xs

/-- `getImportantContext()` from `memory.js`: render the last 3 exchanges
(`items.slice(-3)`) as `User:`/`Bot:` lines joined with newlines. -/
def getImportantContext (items : List Exchange) : String :=
  joinSep "\n" ((items.drop (items.length - 3)).map renderExchange)

/-- A sequence of `addExchange` calls, oldest first. -/
def appendAll (es : List Exchange) (mem : List Exchange) : List Exchange :=
  es.foldl (fun m e => addExchange e.user e.bot e.ts m) mem

/-! ## Response parsing, from `app.post('/api/chat')` -/

/-- The sentinel the prompt instructs Gemini to emit. -/
def sentinel : String := "StressLevel:"

/-- The priority-ordered descriptor mapping applied to the lowercased,
trimmed text after the sentinel:
`if includes('very high') 3 else if includes('high') 2 else if includes('mid') 1 else 0`. -/
def stressOfDescriptor (raw : String) : Nat :=
  if strContains raw "very high" then 3
  else if strContains raw "high" then 2
  else if strContains raw "mid" then 1
  else 0

/-- The stress-level extraction in `app.post('/api/chat')`:
`const [botText, ...rest] = aiResponse.split('StressLevel:')` and
`rest.join('StressLevel:').trim().toLowerCase()` — i.e. reply body before the
first sentinel occurrence, descriptor after it; with no occurrence the whole
text is the body, `rest.join` is empty, and every `includes` check fails, so
the level defaults to 0. -/
def parseStress (aiResponse : String) : String × Nat :=
  match jsSplitFirst sentinel.data aiResponse.data with
  | none => (aiResponse, 0)
  | some (pre, post) =>
      (String.mk pre, stressOfDescriptor (lowerStr (trimStr (String.mk post))))

/-- `finalBotText`: `botText.trim()`, plus the helpline reminder when the
parsed level is 3. -/
def finalBotText (botText : String) (stressLevel : Nat) : String :=
  if stressLevel = 3 then trimStr botText ++ helplineSuffix else trimStr botText

/-! ## The emotion classifier adapter -/

/-- Outcome of the `PythonShell.run('emotion_analyzer.py', ...)` call as seen
by the adapter in `backend/index.js`: the whole call throws (nonzero exit,
timeout, Python unavailable, or `JSON.parse` failure on its last line), or it
resolves with no output lines, or its last line parses with an optional
`top_emotion` string field (`none` for an absent field, `some ""` for an empty
one). -/
inductive ClassifierOutcome where
  | failure
  | emptyOutput
  | parsed (topEmotion : Option String)
deriving DecidableEq, Repr

/-- The five-label output vocabulary of the external classifier. -/
def emotionLabels : List String :=
  ["neutral", "sadness", "happiness", "anger", "fear"]

/-- Modelled from the spec: `emotion_analyzer.py` is not under `src/` (only
its caller in `backend/index.js` is).  Per the spec, a successful well-formed
classifier run emits a `top_emotion` drawn from
`{neutral, sadness, happiness, anger, fear}`; this predicate captures that
contract. -/
def specClassifierWF : ClassifierOutcome → Bool
  | .parsed (some e) => decide (e ∈ emotionLabels)
  | _ => true

/-- The emotion-detection block of `app.post('/api/chat')`: `let emotion =
'neutral'` before the `try`, `emotion = parsed.top_emotion || 'neutral'` on a
parsed result, and the `catch` keeps `'neutral'` on any failure. -/
def detectEmotion : ClassifierOutcome → String
  | .failure => "neutral"
  | .emptyOutput => "neutral"
  | .parsed none => "neutral"
  | .parsed (some e) => if e = "" then "neutral" else e

/-! ## The `/api/chat` handler -/

/-- Observable outcome of one `POST /api/chat` request: HTTP status, the JSON
fields (`response`, `error`, `stressLevel` — absent fields are `none`), the
memory store after the request, and whether the emotion classifier and the
generative service were invoked during the turn. -/
structure ChatOutcome where
  status : Nat
  response : Option String
  error : Option String
  stressLevel : Option Nat
  mem : List Exchange
  emotionCalled : Bool
  geminiCalled : Bool
deriving DecidableEq, Repr

/-- `app.post('/api/chat')` from `backend/index.js`.  `body` is the request's
`message` field (`none` when absent; the source's falsy test `!message` also
rejects the empty string).  `cls` is the classifier outcome, `gemini` the
generative call's outcome (`Except.error` when `generateContent` throws), and
`randG`/`randD` stand for `Math.floor(Math.random()*len)` — an arbitrary index
reduced modulo the pool length. -/
def chatHandler (body : Option String) (mem : List Exchange) (now : Nat)
    (cls : ClassifierOutcome) (gemini : Except Unit String)
    (randG randD : Nat) : ChatOutcome :=
  match body with
  | none => ⟨400, none, some "Message is required.", none, mem, false, false⟩
  | some message =>
    if message = "" then
      ⟨400, none, some "Message is required.", none, mem, false, false⟩
    else
      let lower := lowerStr message
      if crisisKeywords.any (fun k => strContains lower k) then
        ⟨200, some crisisMsg, none, some 3, addExchange message crisisMsg now mem, false, false⟩
      else
        let _emotion := detectEmotion cls
        match gemini with
        | .ok aiResponse =>
          let parsed := parseStress aiResponse
          let finalText := finalBotText parsed.1 parsed.2
          ⟨200, some finalText, none, some parsed.2,
            addExchange message finalText now mem, true, true⟩
        | .error _ =>
          let fallback :=
            if isGreeting message then
              GREETING_RESPONSES.getD (randG % GREETING_RESPONSES.length) ""
            else
              DEMO_REPLIES.getD (randD % DEMO_REPLIES.length) ""
          ⟨200, some fallback, none, none, mem, true, true⟩

/-! ## Client-side stress display -/

/-- The client update in `sendMessage` (frontend variant carrying the stress
meter): `if (typeof data.stressLevel === 'number') setStressLevel(...)` — a
response without a numeric `stressLevel` leaves the displayed level
unchanged. -/
def applyServerStress (current : Nat) (received : Option Nat) : Nat :=
  match received with
  | some n => n
  | none => current

/-! ## The client escalation state machine -/

/-- Modelled from the spec: the client Escalation State Machine (§4.8) is not
present in any file under `src/`; its state is
`{serverLevel, deathMentionCount}` plus the displayed severity tier. -/
structure EscalationState where
  serverLevel : Option Nat
  deathMentionCount : Nat
  displayed : Nat
deriving DecidableEq, Repr

/-- Modelled from the spec: on send, a death-keyword match increments
`deathMentionCount`; immediately afterwards, if the turn matched and the
counter has reached 2, the displayed level is force-set to 4 without waiting
for the server. -/
def escOnSend (matched : Bool) (st : EscalationState) : EscalationState :=
  if matched then
    let c := st.deathMentionCount + 1
    { st with deathMentionCount := c,
              displayed := if 2 ≤ c then 4 else st.displayed }
  else st

/-- Modelled from the spec: on receiving a response with a numeric level, set
`serverLevel` and display the `Ultra` tier (4) exactly when
`deathMentionCount ≥ 3` and the received level is 3, otherwise display the
received level; a response without a level changes nothing. -/
def escOnReceive (received : Option Nat) (st : EscalationState) : EscalationState :=
  match received with
  | none => st
  | some n =>
    { st with serverLevel := some n,
              displayed := if 3 ≤ st.deathMentionCount ∧ n = 3 then 4 else n }

/-! ## Helper lemmas -/

theorem prefixOfBool (l₁ l₂ : List Char) : l₁.isPrefixOf l₂ = true ↔ l₁ <+: l₂ :=
  List.isPrefixOf_iff_prefix

theorem jsSplitFirst_isSome (sep s : List Char) :
    (jsSplitFirst sep s).isSome = true ↔ sep <:+: s := by
  induction s with
  | nil =>
    by_cases h : sep = []
    · subst h; simp [jsSplitFirst]
    · simp [jsSplitFirst, List.isEmpty_iff, h, List.infix_nil]
  | cons c rest ih =>
    rw [List.infix_cons_iff]
    by_cases hp : sep.isPrefixOf (c :: rest) = true
    · simp only [jsSplitFirst, hp, if_true, Option.isSome_some, true_iff]
      exact Or.inl ((prefixOfBool _ _).mp hp)
    · have hp' : ¬ sep <+: (c :: rest) := fun h => hp ((prefixOfBool _ _).mpr h)
      simp only [Bool.not_eq_true] at hp
      cases hj : jsSplitFirst sep rest with
      | none =>
        simp only [jsSplitFirst, hp, Bool.false_eq_true, if_false, hj]
        simp only [Option.isSome_none, Bool.false_eq_true, false_iff]
        rw [hj] at ih
        simp only [Option.isSome_none, Bool.false_eq_true, false_iff] at ih
        tauto
      | some pq =>
        simp only [jsSplitFirst, hp, Bool.false_eq_true, if_false, hj]
        rw [hj] at ih
        simp only [Option.isSome_some, true_iff] at ih
        simp only [Option.isSome_some, true_iff]
        exact Or.inr ih

theorem jsSplitFirst_eq_some (sep : List Char) :
    ∀ (s pre post : List Char), jsSplitFirst sep s = some (pre, post) →
      s = pre ++ sep ++ post
      ∧ ∀ pre2 post2 : List Char, s = pre2 ++ sep ++ post2 → pre.length ≤ pre2.length := by
  intro s
  induction s with
  | nil =>
    intro pre post h
    by_cases hsep : sep = []
    · subst hsep
      simp [jsSplitFirst] at h
      obtain ⟨h1, h2⟩ := h
      subst h1; subst h2
      exact ⟨rfl, fun _ _ _ => Nat.zero_le _⟩
    · simp [jsSplitFirst, List.isEmpty_iff, hsep] at h
  | cons c rest ih =>
    intro pre post h
    by_cases hp : sep.isPrefixOf (c :: rest) = true
    · simp only [jsSplitFirst, hp, if_true, Option.some.injEq, Prod.mk.injEq] at h
      obtain ⟨h1, h2⟩ := h
      subst h1
      obtain ⟨t, ht⟩ := (prefixOfBool _ _).mp hp
      have hdrop : (c :: rest).drop sep.length = t := by
        rw [← ht, List.drop_left]
      rw [hdrop] at h2
      subst h2
      exact ⟨by simpa using ht.symm, fun _ _ _ => Nat.zero_le _⟩
    · have hp' : ¬ sep <+: (c :: rest) := fun h => hp ((prefixOfBool _ _).mpr h)
      simp only [Bool.not_eq_true] at hp
      cases hj : jsSplitFirst sep rest with
      | none => simp [jsSplitFirst, hp, hj] at h
      | some pq =>
        obtain ⟨p, q⟩ := pq
        simp only [jsSplitFirst, hp, Bool.false_eq_true, if_false, hj,
          Option.some.injEq, Prod.mk.injEq] at h
        obtain ⟨h1, h2⟩ := h
        subst h1; subst h2
        obtain ⟨ihEq, ihMin⟩ := ih p _ hj
        constructor
        · simpa using congrArg (c :: ·) ihEq
        · intro pre2 post2 heq
          match pre2 with
          | [] =>
            exfalso
            apply hp'
            exact ⟨post2, by simpa using heq.symm⟩
          | c2 :: pre2' =>
            have : rest = pre2' ++ sep ++ post2 := by
              simpa using congrArg List.tail heq
            have := ihMin pre2' post2 this
            simpa using Nat.succ_le_succ this

theorem containsIffInfix (hay needle : String) :
    strContains hay needle = true ↔ needle.data <:+: hay.data := by
  simpa [strContains, containsL] using jsSplitFirst_isSome needle.data hay.data

theorem length_writeMemory_le (l : List Exchange) :
    (writeMemory l).length ≤ MAX_ITEMS := by
  simp only [writeMemory, List.length_drop, MAX_ITEMS]
  omega

theorem length_addExchange_le (u b : String) (t : Nat) (m : List Exchange) :
    (addExchange u b t m).length ≤ MAX_ITEMS :=
  length_writeMemory_le _

theorem appendAll_length_le (es : List Exchange) :
    ∀ mem : List Exchange, mem.length ≤ MAX_ITEMS →
      (appendAll es mem).length ≤ MAX_ITEMS := by
  induction es with
  | nil => intro mem h; exact h
  | cons e es ih =>
    intro mem _
    exact ih (addExchange e.user e.bot e.ts mem) (length_addExchange_le _ _ _ _)

theorem greeting_pool_nonempty_strings : ∀ r ∈ GREETING_RESPONSES, r ≠ "" := by decide

theorem demo_pool_nonempty_strings : ∀ r ∈ DEMO_REPLIES, r ≠ "" := by decide

theorem pools_disjoint : ∀ r ∈ GREETING_RESPONSES, r ∉ DEMO_REPLIES := by decide

theorem getD_mod_mem (l : List String) (i : Nat) (hl : l ≠ []) :
    l.getD (i % l.length) "" ∈ l := by
  have h : i % l.length < l.length := Nat.mod_lt _ (List.length_pos.mpr hl)
  rw [List.getD_eq_getElem l "" h]
  exact List.getElem_mem h

/-! ## Claims -/

/-- C6: a request whose body lacks a `message` field is answered with HTTP 400
and a JSON body `{ error: "Message is required." }`, and has no pipeline side
effects — the memory store is unchanged and neither the emotion classifier nor
the generative service is invoked. -/
theorem c6_missing_message_validation (mem : List Exchange) (now : Nat)
    (cls : ClassifierOutcome) (gemini : Except Unit String) (randG randD : Nat) :
    chatHandler none mem now cls gemini randG randD =
      ⟨400, none, some "Message is required.", none, mem, false, false⟩ := rfl

/-- C4: the memory store never grows past 10 items under any sequence of
appends, and after 11 sequential appends it holds exactly the last 10 appended
exchanges in insertion order (the first append is evicted). -/
theorem c4_memory_capacity :
    (∀ es : List Exchange, (appendAll es []).length ≤ MAX_ITEMS)
    ∧ (∀ e1 e2 e3 e4 e5 e6 e7 e8 e9 e10 e11 : Exchange,
        appendAll [e1, e2, e3, e4, e5, e6, e7, e8, e9, e10, e11] [] =
          [e2, e3, e4, e5, e6, e7, e8, e9, e10, e11]) :=
  ⟨fun es => appendAll_length_le es [] (by simp),
   by
    intro e1 e2 e3 e4 e5 e6 e7 e8 e9 e10 e11
    simp [appendAll, addExchange, writeMemory, MAX_ITEMS, List.foldl]⟩

/-- C8 (counterexample): with a single stored exchange — fewer than 3 — the
context rendering is that exchange's `User:`/`Bot:` lines, which is neither
the empty string nor the `'(no recent context)'` indicator the prompt composer
substitutes for an empty snippet; so "fewer than 3 exchanges yields an empty
or explicit no-context indicator" fails at this input. -/
theorem c8_recent_context_counterexample :
    getImportantContext (addExchange "u1" "b1" 0 []) = "User: u1\nBot: b1"
    ∧ getImportantContext (addExchange "u1" "b1" 0 []) ≠ ""
    ∧ getImportantContext (addExchange "u1" "b1" 0 []) ≠ "(no recent context)" :=
  ⟨rfl, by decide, by decide⟩

/-- C8 (amended): after appending E1..E5, the context snippet is exactly E3,
E4, E5 rendered as alternating `User:`/`Bot:` lines in that order; with fewer
than 3 stored exchanges it renders exactly the exchanges present, without
failing — the empty string arising only when the store is empty. -/
theorem c8_recent_context (e1 e2 e3 e4 e5 : Exchange) :
    getImportantContext (appendAll [e1, e2, e3, e4, e5] []) =
      renderExchange e3 ++ "\n" ++ (renderExchange e4 ++ "\n" ++ renderExchange e5)
    ∧ (∀ e : Exchange, getImportantContext [e] = renderExchange e)
    ∧ (∀ e e' : Exchange, getImportantContext [e, e'] =
        renderExchange e ++ "\n" ++ renderExchange e')
    ∧ getImportantContext [] = "" := by
  refine ⟨?_, fun e => ?_, fun e e' => ?_, rfl⟩
  · have h : appendAll [e1, e2, e3, e4, e5] [] = [e1, e2, e3, e4, e5] := by
      simp [appendAll, addExchange, writeMemory, MAX_ITEMS, List.foldl]
    rw [h]
    simp [getImportantContext, joinSep]
  · simp [getImportantContext, joinSep]
  · simp [getImportantContext, joinSep]

/-- C7: on the generative path the returned reply body is the (trimmed) parsed
body with the fixed helpline-reminder suffix appended exactly when the parsed
stress level is 3; for every other level the body is returned without the
suffix.  The suffix embeds the fixed helpline phone number. -/
theorem c7_helpline_reminder (body : String) (level : Nat) :
    (level = 3 → finalBotText body level = trimStr body ++ helplineSuffix)
    ∧ (level ≠ 3 → finalBotText body level = trimStr body)
    ∧ helplinePhone.data <:+: helplineSuffix.data := by
  refine ⟨fun h => ?_, fun h => ?_, by decide⟩
  · simp [finalBotText, h]
  · simp [finalBotText, h]

/-- C7 witness: at level 3 the suffix is appended; at level 2 it is not. -/
theorem c7_helpline_reminder_witness :
    finalBotText "ok" 3 = trimStr "ok" ++ helplineSuffix
    ∧ finalBotText "ok" 2 = trimStr "ok" :=
  ⟨(c7_helpline_reminder "ok" 3).1 rfl, (c7_helpline_reminder "ok" 2).2.1 (by decide)⟩

/-- C9: whatever the outcome of the external emotion classification call —
a throw (nonzero exit, malformed output, timeout), empty output, a record
without a usable `top_emotion`, or a well-formed success — the adapter
produces a label rather than propagating an error, degrades every failure to
`neutral`, and its output is always one of the five labels. -/
theorem c9_classifier_degradation (o : ClassifierOutcome)
    (h : specClassifierWF o = true) :
    detectEmotion o ∈ emotionLabels
    ∧ (o = ClassifierOutcome.failure → detectEmotion o = "neutral")
    ∧ (o = ClassifierOutcome.emptyOutput → detectEmotion o = "neutral")
    ∧ (o = ClassifierOutcome.parsed none → detectEmotion o = "neutral") := by
  refine ⟨?_, fun h' => by subst h'; rfl, fun h' => by subst h'; rfl,
    fun h' => by subst h'; rfl⟩
  match o, h with
  | .failure, _ => decide
  | .emptyOutput, _ => decide
  | .parsed none, _ => decide
  | .parsed (some e), h =>
    by_cases he : e = ""
    · simp [detectEmotion, he, emotionLabels]
    · have hmem : e ∈ emotionLabels := of_decide_eq_true h
      simpa [detectEmotion, he] using hmem

/-- C9 witness: a successful well-formed run returning `sadness` yields
`sadness`, one of the five labels. -/
theorem c9_classifier_degradation_witness :
    detectEmotion (ClassifierOutcome.parsed (some "sadness")) ∈ emotionLabels :=
  (c9_classifier_degradation (ClassifierOutcome.parsed (some "sadness")) (by decide)).1

/-- C3: in the escalation state machine, receiving a server level displays the
Ultra tier (4) iff the death-mention counter has reached 3 and the received
level is 3; independently, sending a message that matches a death keyword
while the counter is at least 2 force-sets the displayed level to 4 before any
server response. -/
theorem c3_escalation_rules (st : EscalationState) (n : Nat) (hn : n ≤ 3) :
    ((escOnReceive (some n) st).displayed = 4 ↔ 3 ≤ st.deathMentionCount ∧ n = 3)
    ∧ (escOnReceive (some n) st).serverLevel = some n
    ∧ (2 ≤ st.deathMentionCount → (escOnSend true st).displayed = 4)
    ∧ (escOnSend true st).deathMentionCount = st.deathMentionCount + 1 := by
  refine ⟨?_, rfl, fun h2 => ?_, rfl⟩
  · simp only [escOnReceive]
    split_ifs with h
    · simp [h]
    · constructor
      · intro h4; omega
      · intro hc; exact absurd hc h
  · simp only [escOnSend, if_true]
    have : 2 ≤ st.deathMentionCount + 1 := by omega
    simp [this]

/-- C3 witness: with counter 3 and server level 3 the Ultra tier shows, and a
matching send at counter 2 force-displays 4. -/
theorem c3_escalation_rules_witness :
    ((escOnReceive (some 3) ⟨none, 3, 0⟩).displayed = 4 ↔ 3 ≤ 3 ∧ 3 = 3)
    ∧ (escOnSend true ⟨none, 2, 0⟩).displayed = 4 :=
  ⟨(c3_escalation_rules ⟨none, 3, 0⟩ 3 (by decide)).1,
   (c3_escalation_rules ⟨none, 2, 0⟩ 3 (by decide)).2.2.1 (by decide)⟩

/-- C1: for every message whose lowercased text contains a crisis keyword as a
substring, the handler answers 200 with the fixed crisis message — which
embeds the fixed helpline phone number — reports `stressLevel` exactly 3,
persists the exchange to the memory store, and invokes neither the emotion
classifier nor the generative service. -/
theorem c1_crisis_interceptor (m : String) (mem : List Exchange) (now : Nat)
    (cls : ClassifierOutcome) (gemini : Except Unit String) (randG randD : Nat)
    (hne : m ≠ "")
    (hcrisis : ∃ k ∈ crisisKeywords, k.data <:+: (lowerStr m).data) :
    chatHandler (some m) mem now cls gemini randG randD =
      ⟨200, some crisisMsg, none, some 3,
        writeMemory (mem ++ [⟨m, crisisMsg, now⟩]), false, false⟩
    ∧ helplinePhone.data <:+: crisisMsg.data := by
  have hb : crisisKeywords.any (fun k => strContains (lowerStr m) k) = true := by
    rw [List.any_eq_true]
    obtain ⟨k, hk, hik⟩ := hcrisis
    exact ⟨k, hk, (containsIffInfix _ _).mpr hik⟩
  refine ⟨?_, by decide⟩
  simp [chatHandler, hne, hb, addExchange]

/-- C1 witness: the message `"I want to die"` triggers the crisis
interceptor. -/
theorem c1_crisis_interceptor_witness :
    chatHandler (some "I want to die") [] 0 ClassifierOutcome.failure
        (Except.error ()) 0 0 =
      ⟨200, some crisisMsg, none, some 3,
        writeMemory ([] ++ [⟨"I want to die", crisisMsg, 0⟩]), false, false⟩
    ∧ helplinePhone.data <:+: crisisMsg.data :=
  c1_crisis_interceptor "I want to die" [] 0 ClassifierOutcome.failure
    (Except.error ()) 0 0 (by decide) (by decide)

/-- C2: the response parser splits the raw generative output at the first
occurrence of the sentinel `StressLevel:` (the text before it is the reply
body, the text after it — trimmed and lowercased — the descriptor); the
descriptor is mapped by priority-ordered substring checks (`very high` → 3,
else `high` → 2, else `mid` → 1, else 0); and with no sentinel at all the
whole text becomes the reply body with level 0, with no error path. -/
theorem c2_stress_level_parsing (s : String) :
    (¬ sentinel.data <:+: s.data → parseStress s = (s, 0))
    ∧ (∀ pre post : List Char,
        jsSplitFirst sentinel.data s.data = some (pre, post) →
          s.data = pre ++ sentinel.data ++ post
          ∧ (∀ pre2 post2 : List Char,
              s.data = pre2 ++ sentinel.data ++ post2 → pre.length ≤ pre2.length)
          ∧ parseStress s =
              (String.mk pre, stressOfDescriptor (lowerStr (trimStr (String.mk post)))))
    ∧ (∀ d : String,
        (strContains d "very high" = true → stressOfDescriptor d = 3)
        ∧ (strContains d "very high" = false → strContains d "high" = true →
            stressOfDescriptor d = 2)
        ∧ (strContains d "very high" = false → strContains d "high" = false →
            strContains d "mid" = true → stressOfDescriptor d = 1)
        ∧ (strContains d "very high" = false → strContains d "high" = false →
            strContains d "mid" = false → stressOfDescriptor d = 0)) := by
  refine ⟨fun habs => ?_, fun pre post h => ?_, fun d => ?_⟩
  · have hnone : jsSplitFirst sentinel.data s.data = none := by
      rcases hj : jsSplitFirst sentinel.data s.data with _ | pq
      · rfl
      · exfalso
        apply habs
        have h1 := jsSplitFirst_isSome sentinel.data s.data
        rw [hj] at h1
        simpa using h1.mp (by simp)
    simp [parseStress, hnone]
  · obtain ⟨heq, hmin⟩ := jsSplitFirst_eq_some sentinel.data s.data pre post h
    exact ⟨heq, hmin, by simp [parseStress, h]⟩
  · refine ⟨fun h1 => ?_, fun h1 h2 => ?_, fun h1 h2 h3 => ?_, fun h1 h2 h3 => ?_⟩
    · simp [stressOfDescriptor, h1]
    · simp [stressOfDescriptor, h1, h2]
    · simp [stressOfDescriptor, h1, h2, h3]
    · simp [stressOfDescriptor, h1, h2, h3]

/-- C2 witness: a response with the sentinel and descriptor `very high`
parses to its body and level 3; a response without the sentinel becomes the
body with level 0. -/
theorem c2_stress_level_parsing_witness :
    parseStress "Take a breath. StressLevel: very high" = ("Take a breath. ", 3)
    ∧ parseStress "no sentinel here" = ("no sentinel here", 0) := by
  constructor
  · have h := ((c2_stress_level_parsing "Take a breath. StressLevel: very high").2.1
      "Take a breath. ".data " very high".data (by decide)).2.2
    rw [h]; decide
  · exact (c2_stress_level_parsing "no sentinel here").1 (by decide)

/-- C5: when the generative call throws and the crisis interceptor did not
match, the handler still returns 200 with a non-empty response drawn from the
greeting pool exactly when the message is classified as a greeting and from
the general pool otherwise, the JSON has no `stressLevel` field, and the
client, seeing no numeric level, leaves its displayed level unchanged.  The
memory store is not written on this path. -/
theorem c5_generative_failure_fallback (m : String) (mem : List Exchange) (now : Nat)
    (cls : ClassifierOutcome) (randG randD : Nat) (cur : Nat)
    (hne : m ≠ "")
    (hnc : crisisKeywords.any (fun k => strContains (lowerStr m) k) = false) :
    (∃ resp : String,
      chatHandler (some m) mem now cls (Except.error ()) randG randD =
        ⟨200, some resp, none, none, mem, true, true⟩
      ∧ resp ≠ ""
      ∧ (isGreeting m = true → resp ∈ GREETING_RESPONSES ∧ resp ∉ DEMO_REPLIES)
      ∧ (isGreeting m = false → resp ∈ DEMO_REPLIES ∧ resp ∉ GREETING_RESPONSES))
    ∧ applyServerStress cur
        (chatHandler (some m) mem now cls (Except.error ()) randG randD).stressLevel
      = cur := by
  by_cases hg : isGreeting m = true
  · have hr : chatHandler (some m) mem now cls (Except.error ()) randG randD =
        ⟨200, some (GREETING_RESPONSES.getD (randG % GREETING_RESPONSES.length) ""),
          none, none, mem, true, true⟩ := by
      simp [chatHandler, hne, hnc, hg]
    have hmem : GREETING_RESPONSES.getD (randG % GREETING_RESPONSES.length) ""
        ∈ GREETING_RESPONSES := getD_mod_mem _ _ (by decide)
    refine ⟨⟨_, hr, greeting_pool_nonempty_strings _ hmem,
      fun _ => ⟨hmem, pools_disjoint _ hmem⟩, fun hng => absurd hg (by simp [hng])⟩, ?_⟩
    rw [hr]
    rfl
  · have hg' : isGreeting m = false := by simpa using hg
    have hr : chatHandler (some m) mem now cls (Except.error ()) randG randD =
        ⟨200, some (DEMO_REPLIES.getD (randD % DEMO_REPLIES.length) ""),
          none, none, mem, true, true⟩ := by
      simp [chatHandler, hne, hnc, hg']
    have hmem : DEMO_REPLIES.getD (randD % DEMO_REPLIES.length) ""
        ∈ DEMO_REPLIES := getD_mod_mem _ _ (by decide)
    refine ⟨⟨_, hr, demo_pool_nonempty_strings _ hmem,
      fun hgt => absurd hgt hg,
      fun _ => ⟨hmem, fun hgr => pools_disjoint _ hgr hmem⟩⟩, ?_⟩
    rw [hr]
    rfl

/-- C5 witness: the greeting `"hello"` on the failing-generative path draws
from the greeting pool, carries no stress level, and leaves a displayed level
of 2 unchanged. -/
theorem c5_generative_failure_fallback_witness :
    (∃ resp : String,
      chatHandler (some "hello") [] 0 ClassifierOutcome.failure (Except.error ()) 0 0 =
        ⟨200, some resp, none, none, [], true, true⟩
      ∧ resp ≠ ""
      ∧ (isGreeting "hello" = true → resp ∈ GREETING_RESPONSES ∧ resp ∉ DEMO_REPLIES)
      ∧ (isGreeting "hello" = false → resp ∈ DEMO_REPLIES ∧ resp ∉ GREETING_RESPONSES))
    ∧ applyServerStress 2
        (chatHandler (some "hello") [] 0 ClassifierOutcome.failure (Except.error ()) 0 0).stressLevel
      = 2 :=
  c5_generative_failure_fallback "hello" [] 0 ClassifierOutcome.failure 0 0 2
    (by decide) (by decide)

/-- C10: `isGreeting` classifies as a greeting every message whose lowercased
text contains one of the eight greeting words anywhere, including inside
longer words — `"Tell me about you"` (contains `yo`) and `"this"` (contains
`hi`) count as greetings — so on the fallback path such messages draw from the
greeting pool. -/
theorem c10_greeting_substring_overmatch :
    (∀ m : String, (∃ g ∈ greetings, g.data <:+: (lowerStr m).data) →
      isGreeting m = true)
    ∧ isGreeting "Tell me about you" = true
    ∧ isGreeting "this" = true
    ∧ (∀ randG randD : Nat,
        chatHandler (some "this") [] 0 ClassifierOutcome.failure (Except.error ())
            randG randD =
          ⟨200, some (GREETING_RESPONSES.getD (randG % GREETING_RESPONSES.length) ""),
            none, none, [], true, true⟩
        ∧ GREETING_RESPONSES.getD (randG % GREETING_RESPONSES.length) ""
            ∈ GREETING_RESPONSES) := by
  have h1 : crisisKeywords.any (fun k => strContains (lowerStr "this") k) = false := by
    decide
  have h2 : isGreeting "this" = true := by decide
  refine ⟨fun m hm => ?_, by decide, h2, fun randG randD =>
    ⟨by simp [chatHandler, h1, h2], getD_mod_mem _ _ (by decide)⟩⟩
  rw [isGreeting, List.any_eq_true]
  obtain ⟨g, hg, hig⟩ := hm
  exact ⟨g, hg, (containsIffInfix _ _).mpr hig⟩

/-- C10 witness: `"How are you"` contains `yo` inside `you` and is classified
as a greeting. -/
theorem c10_greeting_substring_overmatch_witness :
    isGreeting "How are you" = true :=
  c10_greeting_substring_overmatch.1 "How are you" (by decide)

end UCare
